import Mathlib

/-!
Verification development for the ResNet backbone module
(up/models/backbones/resnet.py of the United-Perception repository).

The Python module is shallowly embedded: each block class becomes a Lean
structure built by an `init` function mirroring the class constructor, the
per-block forward passes become functions producing symbolic tensor
expressions (`TExpr`), and the stateful `ResNet.__init__` / `_make_layer` /
`forward` / `freeze_layer` / `train` methods become explicit state-passing
functions over `Except String` (Python exceptions become `.error`).
Machine floats of the source carry only exact small values in the
configurations of interest and are modelled by `ℚ`.
-/

set_option linter.unusedVariables false

namespace UPResNet

/-- Python list indexing `xs[i]` for a nonnegative index: raises IndexError
when out of range. -/
def pyIndex {α : Type} (xs : List α) (i : Nat) : Except String α :=
  match xs.get? i with
  | some v => .ok v
  | none => .error "IndexError"

/-- Python `xs[-1]`: the last element, IndexError on an empty list. -/
def pyLast {α : Type} (xs : List α) : Except String α :=
  match xs.getLast? with
  | some v => .ok v
  | none => .error "IndexError"

/-- A Python list comprehension `[xs[i] for i in l]`. -/
def mapPyIndex {α : Type} (xs : List α) : List Nat → Except String (List α)
  | [] => .ok []
  | i :: is =>
    match pyIndex xs i with
    | .error e => .error e
    | .ok v =>
      match mapPyIndex xs is with
      | .error e => .error e
      | .ok vs => .ok (v :: vs)

/-- Python `int(q)` on an exact rational: truncation toward zero. -/
def pyInt (q : ℚ) : ℤ :=
  if 0 ≤ q then q.floor else -((-q).floor)

/-- `int(w * m)` for an integer `w` and a rational `m`.  The product is
formed on the raw numerator and denominator; `pyIntMul_eq` below shows it
is exactly `int` of the rational product. -/
def pyIntMul (w : ℤ) (m : ℚ) : ℤ :=
  pyInt (Rat.divInt (w * m.num) (m.den : ℤ))

instance exceptDecEq {ε α : Type} [DecidableEq ε] [DecidableEq α] :
    DecidableEq (Except ε α) := fun a b =>
  match a, b with
  | .error x, .error y =>
    if h : x = y then .isTrue (by rw [h])
    else .isFalse (fun hc => h (by cases hc; rfl))
  | .error _, .ok _ => .isFalse (fun hc => Except.noConfusion hc)
  | .ok _, .error _ => .isFalse (fun hc => Except.noConfusion hc)
  | .ok x, .ok y =>
    if h : x = y then .isTrue (by rw [h])
    else .isFalse (fun hc => h (by cases hc; rfl))

/-- Whether `hay` starts with the needle (first argument). -/
def charsStartWith : List Char → List Char → Bool
  | [], _ => true
  | _ :: _, [] => false
  | a :: as, b :: bs => a == b && charsStartWith as bs

/-- Whether the needle occurs as a contiguous run inside `hay`. -/
def charsContain (needle : List Char) : List Char → Bool
  | [] => needle.isEmpty
  | c :: rest => charsStartWith needle (c :: rest) || charsContain needle rest

/-- Python substring test `needle in hay` on strings. -/
def pyInStr (needle hay : String) : Bool :=
  charsContain needle.data hay.data

/-- Stochastic depth, function `drop_path` (resnet.py lines 25-40).
Tensors are batches of samples (`List (List ℚ)`), the per-sample uniform
draws of `torch.rand` are passed explicitly as `rand`, and `floor_`
binarization is `Rat.floor`. -/
def drop_path (x : List (List ℚ)) (drop_prob : ℚ) (training : Bool)
    (rand : List ℚ) : List (List ℚ) :=
  if drop_prob = 0 ∨ training = false then x
  else
    let keep_prob := 1 - drop_prob
    let random_tensor : List ℚ := (x.zip rand).map (fun pr => ((keep_prob + pr.2).floor : ℚ))
    (x.zip random_tensor).map (fun pr => pr.1.map (fun v => v / keep_prob * pr.2))

/-- Symbolic tensor expressions: the dataflow produced by a block forward. -/
inductive TExpr where
  | input : TExpr
  | conv : String → TExpr → TExpr
  | deformConv : String → TExpr → TExpr → TExpr
  | norm : String → TExpr → TExpr
  | relu : TExpr → TExpr
  | dropPathE : ℚ → TExpr → TExpr
  | downsampleE : TExpr → TExpr
  | repconvE : TExpr → TExpr
  | add : TExpr → TExpr → TExpr
  deriving DecidableEq

/-- Whether a drop-path node occurs anywhere in the expression. -/
def hasDropNode : TExpr → Bool
  | .input => false
  | .conv _ t => hasDropNode t
  | .deformConv _ t u => hasDropNode t || hasDropNode u
  | .norm _ t => hasDropNode t
  | .relu t => hasDropNode t
  | .dropPathE _ _ => true
  | .downsampleE t => hasDropNode t
  | .repconvE t => hasDropNode t
  | .add a b => hasDropNode a || hasDropNode b

/-- Whether the expression is a residual sum whose main (residual) branch was
wrapped in drop-path right before the addition, i.e. `relu(drop(out) + shortcut)`. -/
def dropAppliedToMain : TExpr → Bool
  | .relu (.add (.dropPathE _ _) _) => true
  | _ => false

/-- Descriptor of an `nn.Conv2d` (or deformable conv) as configured. -/
structure Conv2dDesc where
  inChannels : ℤ
  outChannels : ℤ
  kernel : ℤ
  stride : ℤ
  padding : ℤ
  dilation : ℤ
  deriving DecidableEq

/-- State of class `BasicBlock` after `__init__` (lines 66-98). -/
structure BasicBlockM where
  conv1 : Conv2dDesc
  conv2 : Conv2dDesc
  downsample : Option Unit
  dropPath : Option ℚ
  stride : ℤ
  deriving DecidableEq

/-- `BasicBlock.__init__`: a 3x3 conv carrying the stride, then `conv3x3`. -/
def BasicBlock.init (inplanes planes stride dilation : ℤ)
    (downsample : Option Unit) (stride_in_1x1 : Bool) (dp : Option ℚ) : BasicBlockM :=
  { conv1 := ⟨inplanes, planes, 3, stride, dilation, dilation⟩
    conv2 := ⟨planes, planes, 3, 1, 1, 1⟩
    downsample := downsample
    dropPath := dp
    stride := stride }

/-- `BasicBlock.forward` (lines 108-127). -/
def BasicBlock.fwd (b : BasicBlockM) (x : TExpr) : TExpr :=
  let out := TExpr.relu (TExpr.norm "norm1" (TExpr.conv "conv1" x))
  let out := TExpr.norm "norm2" (TExpr.conv "conv2" out)
  let out := match b.dropPath with
    | some p => TExpr.dropPathE p out
    | none => out
  let residual := match b.downsample with
    | some _ => TExpr.downsampleE x
    | none => x
  TExpr.relu (TExpr.add out residual)

/-- State of class `RepBasicBlock` relevant to its forward (lines 130-167). -/
structure RepBasicBlockM where
  block_type : String
  downsample : Option Unit
  dropPath : Option ℚ
  stride : ℤ
  deriving DecidableEq

/-- `RepBasicBlock.__init__` inherits the `BasicBlock` argument list and
additionally reads the class-level `block_type`. -/
def RepBasicBlock.init (block_type : String) (inplanes planes stride dilation : ℤ)
    (downsample : Option Unit) (stride_in_1x1 : Bool) (dp : Option ℚ) : RepBasicBlockM :=
  { block_type := block_type
    downsample := downsample
    dropPath := dp
    stride := stride }

/-- `RepBasicBlock.forward` (lines 169-192). -/
def RepBasicBlock.fwd (b : RepBasicBlockM) (x : TExpr) : TExpr :=
  let out :=
    if pyInStr "pre" b.block_type then
      TExpr.norm "norm2" (TExpr.conv "conv2" (TExpr.repconvE x))
    else
      TExpr.repconvE (TExpr.relu (TExpr.norm "norm1" (TExpr.conv "conv1" x)))
  let out := match b.dropPath with
    | some p => TExpr.dropPathE p out
    | none => out
  let residual := match b.downsample with
    | some _ => TExpr.downsampleE x
    | none => x
  TExpr.relu (TExpr.add out residual)

/-- State of class `DeformBasicBlock` after `__init__` (lines 195-223):
its constructor takes no drop-path argument. -/
structure DeformBasicBlockM where
  deform_offset : Conv2dDesc
  conv1 : Conv2dDesc
  conv2 : Conv2dDesc
  downsample : Option Unit
  stride : ℤ
  deriving DecidableEq

/-- `DeformBasicBlock.__init__`. -/
def DeformBasicBlock.init (inplanes planes stride dilation : ℤ)
    (downsample : Option Unit) (stride_in_1x1 : Bool) : DeformBasicBlockM :=
  let padding := Int.fdiv (dilation * (3 - 1)) 2
  { deform_offset := ⟨inplanes, 18, 3, stride, padding, dilation⟩
    conv1 := ⟨inplanes, planes, 3, stride, padding, dilation⟩
    conv2 := ⟨planes, planes, 3, 1, 1, 1⟩
    downsample := downsample
    stride := stride }

/-- `DeformBasicBlock.forward` (lines 233-250): no drop-path is ever applied. -/
def DeformBasicBlock.fwd (b : DeformBasicBlockM) (x : TExpr) : TExpr :=
  let offset := TExpr.conv "deform_offset" x
  let out := TExpr.relu (TExpr.norm "norm1" (TExpr.deformConv "conv1" x offset))
  let out := TExpr.norm "norm2" (TExpr.conv "conv2" out)
  let residual := match b.downsample with
    | some _ => TExpr.downsampleE x
    | none => x
  TExpr.relu (TExpr.add out residual)

/-- State of class `Bottleneck` after `__init__` (lines 253-297). -/
structure BottleneckM where
  conv1 : Conv2dDesc
  conv2 : Conv2dDesc
  conv3 : Conv2dDesc
  downsample : Option Unit
  dropPath : Option ℚ
  stride : ℤ
  deriving DecidableEq

/-- `Bottleneck.__init__`: `stride_1x1, stride_3x3 = (stride, 1) if
stride_in_1x1 else (1, stride)` (line 271). -/
def Bottleneck.init (inplanes planes stride dilation : ℤ)
    (downsample : Option Unit) (stride_in_1x1 : Bool) (dp : Option ℚ) : BottleneckM :=
  let s := if stride_in_1x1 then (stride, 1) else (1, stride)
  { conv1 := ⟨inplanes, planes, 1, s.1, 0, 1⟩
    conv2 := ⟨planes, planes, 3, s.2, dilation, dilation⟩
    conv3 := ⟨planes, planes * 4, 1, 1, 0, 1⟩
    downsample := downsample
    dropPath := dp
    stride := stride }

/-- `Bottleneck.forward` (lines 311-334). -/
def Bottleneck.fwd (b : BottleneckM) (x : TExpr) : TExpr :=
  let out := TExpr.relu (TExpr.norm "norm1" (TExpr.conv "conv1" x))
  let out := TExpr.relu (TExpr.norm "norm2" (TExpr.conv "conv2" out))
  let out := TExpr.norm "norm3" (TExpr.conv "conv3" out)
  let out := match b.dropPath with
    | some p => TExpr.dropPathE p out
    | none => out
  let residual := match b.downsample with
    | some _ => TExpr.downsampleE x
    | none => x
  TExpr.relu (TExpr.add out residual)

/-- State of class `DeformBlock` after `__init__` (lines 337-376):
its constructor takes no drop-path argument. -/
structure DeformBlockM where
  conv1 : Conv2dDesc
  deform_offset : Conv2dDesc
  conv2 : Conv2dDesc
  conv3 : Conv2dDesc
  downsample : Option Unit
  stride : ℤ
  deriving DecidableEq

/-- `DeformBlock.__init__` (line 354 distributes the stride over
conv1/conv2 exactly as `Bottleneck` does). -/
def DeformBlock.init (inplanes planes stride dilation : ℤ)
    (downsample : Option Unit) (stride_in_1x1 : Bool) : DeformBlockM :=
  let s := if stride_in_1x1 then (stride, 1) else (1, stride)
  let padding := Int.fdiv (dilation * (3 - 1)) 2
  { conv1 := ⟨inplanes, planes, 1, s.1, 0, 1⟩
    deform_offset := ⟨planes, 18, 3, s.2, padding, dilation⟩
    conv2 := ⟨planes, planes, 3, s.2, padding, dilation⟩
    conv3 := ⟨planes, planes * 4, 1, 1, 0, 1⟩
    downsample := downsample
    stride := stride }

/-- `DeformBlock.forward` (lines 390-413): no drop-path is ever applied. -/
def DeformBlock.fwd (b : DeformBlockM) (x : TExpr) : TExpr :=
  let out := TExpr.relu (TExpr.norm "norm1" (TExpr.conv "conv1" x))
  let offset := TExpr.conv "deform_offset" out
  let out := TExpr.relu (TExpr.norm "norm2" (TExpr.deformConv "conv2" out offset))
  let out := TExpr.norm "norm3" (TExpr.conv "conv3" out)
  let residual := match b.downsample with
    | some _ => TExpr.downsampleE x
    | none => x
  TExpr.relu (TExpr.add out residual)

/-- Parameter names of `BasicBlock.__init__` (after `self`), lines 69-77. -/
def BasicBlock.ctor_args : List String :=
  ["inplanes", "planes", "stride", "dilation", "downsample", "normalize",
   "stride_in_1x1", "drop_path"]

/-- Parameter names of `RepBasicBlock.__init__`, lines 134-142. -/
def RepBasicBlock.ctor_args : List String :=
  ["inplanes", "planes", "stride", "dilation", "downsample", "normalize",
   "stride_in_1x1", "drop_path"]

/-- Parameter names of `Bottleneck.__init__`, lines 256-263. -/
def Bottleneck.ctor_args : List String :=
  ["inplanes", "planes", "stride", "dilation", "downsample", "normalize",
   "stride_in_1x1", "drop_path"]

/-- Parameter names of `DeformBasicBlock.__init__`, lines 198-205. -/
def DeformBasicBlock.ctor_args : List String :=
  ["inplanes", "planes", "stride", "dilation", "downsample", "normalize",
   "stride_in_1x1"]

/-- Parameter names of `DeformBlock.__init__`, lines 340-347. -/
def DeformBlock.ctor_args : List String :=
  ["inplanes", "planes", "stride", "dilation", "downsample", "normalize",
   "stride_in_1x1"]

/-- The two shapes of downsample path `_make_layer` can build (lines 664-680):
average pool followed by a 1x1 conv and a norm when `avg_down` is set,
otherwise a strided 1x1 conv followed by a norm. -/
inductive DownsampleKind where
  | avgPoolConv : DownsampleKind
  | convNorm : DownsampleKind
  deriving DecidableEq

/-- The arguments `_make_layer` hands to one block constructor
(lines 685-692 and 698-706). -/
structure BlockDesc where
  inplanes : ℤ
  planes : ℤ
  stride : ℤ
  dilation : ℤ
  downsample : Option DownsampleKind
  stride_in_1x1 : Bool
  dropPath : Option ℚ
  deriving DecidableEq

/-- The downsample module decision of `_make_layer` (lines 662-680). -/
def mkDownsample (avg_down : Bool) (stride inplanes planes expansion : ℤ) :
    Option DownsampleKind :=
  if stride ≠ 1 ∨ inplanes ≠ planes * expansion then
    some (if avg_down then .avgPoolConv else .convNorm)
  else none

/-- `drop_path_rate * block_id / (block_nums - 1.)` as an exact rational,
formed on the raw numerator and denominator; `dropRateQ_eq` below shows it
is exactly the rational `drop_path_rate * block_id / (block_nums - 1)`. -/
def dropRateQ (drop_path_rate : ℚ) (block_id block_nums : Nat) : ℚ :=
  Rat.divInt (drop_path_rate.num * block_id)
    (drop_path_rate.den * ((block_nums : ℤ) - 1))

/-- The drop-path module attached to a block: present iff its rate is
strictly positive (lines 683 and 697). -/
def dropOpt (drop_path_rate : ℚ) (block_id block_nums : Nat) : Option ℚ :=
  if 0 < dropRateQ drop_path_rate block_id block_nums then
    some (dropRateQ drop_path_rate block_id block_nums)
  else none

/-- The drop-path rate computation of lines 681 and 695; Python float
division raises ZeroDivisionError when the denominator `block_nums - 1.`
is zero. -/
def blockRate (drop_path_rate : ℚ) (block_id block_nums : Nat) :
    Except String ℚ :=
  if ((block_nums : ℤ) - 1) = 0 then .error "ZeroDivisionError"
  else .ok (dropRateQ drop_path_rate block_id block_nums)

/-- The loop of `_make_layer` over blocks 1..blocks-1 (lines 694-706):
stride 1, no downsample, a fresh drop-path rate per block. -/
def makeRest (drop_path_rate : ℚ) (block_nums : Nat)
    (inplanes planes dilation : ℤ) (stride_in_1x1 : Bool) :
    Nat → Nat → Except String (List BlockDesc)
  | _, 0 => .ok []
  | block_id, n + 1 =>
    match blockRate drop_path_rate block_id block_nums with
    | .error e => .error e
    | .ok r =>
      match makeRest drop_path_rate block_nums inplanes planes dilation
          stride_in_1x1 (block_id + 1) n with
      | .error e => .error e
      | .ok rest =>
        .ok (⟨inplanes, planes, 1, dilation, none, stride_in_1x1,
              if 0 < r then some r else none⟩ :: rest)

/-- `ResNet._make_layer` (lines 651-707).  Returns the stage's blocks and
the updated `self.inplanes`.  The rate of line 681 is computed before the
first block is instantiated, and `block_types[0]` on an empty stage raises
IndexError. -/
def ResNet.make_layer (expansion : ℤ) (avg_down : Bool) (drop_path_rate : ℚ)
    (block_nums : Nat) (inplanes planes : ℤ) (blocks : Nat)
    (stride dilation : ℤ) (stride_in_1x1 : Bool) (block_id : Nat) :
    Except String (List BlockDesc × ℤ) :=
  let downsample := mkDownsample avg_down stride inplanes planes expansion
  match blockRate drop_path_rate block_id block_nums with
  | .error e => .error e
  | .ok r =>
    match blocks with
    | 0 => .error "IndexError"
    | b + 1 =>
      let first : BlockDesc :=
        ⟨inplanes, planes, stride, dilation, downsample, stride_in_1x1,
         if 0 < r then some r else none⟩
      let inplanes2 := planes * expansion
      match makeRest drop_path_rate block_nums inplanes2 planes dilation
          stride_in_1x1 (block_id + 1) b with
      | .error e => .error e
      | .ok rest => .ok (first :: rest, inplanes2)

/-- Pure description of the tail blocks a successful `_make_layer` builds. -/
def restDescs (drop_path_rate : ℚ) (block_nums : Nat)
    (inplanes planes dilation : ℤ) (stride_in_1x1 : Bool) :
    Nat → Nat → List BlockDesc
  | _, 0 => []
  | block_id, n + 1 =>
    ⟨inplanes, planes, 1, dilation, none, stride_in_1x1,
     dropOpt drop_path_rate block_id block_nums⟩ ::
      restDescs drop_path_rate block_nums inplanes planes dilation
        stride_in_1x1 (block_id + 1) n

/-- Pure description of the whole stage a successful `_make_layer` builds. -/
def stageDescs (expansion : ℤ) (avg_down : Bool) (drop_path_rate : ℚ)
    (block_nums : Nat) (inplanes planes : ℤ) (blocks : Nat)
    (stride dilation : ℤ) (stride_in_1x1 : Bool) (block_id : Nat) :
    List BlockDesc :=
  match blocks with
  | 0 => []
  | b + 1 =>
    ⟨inplanes, planes, stride, dilation,
     mkDownsample avg_down stride inplanes planes expansion, stride_in_1x1,
     dropOpt drop_path_rate block_id block_nums⟩ ::
      restDescs drop_path_rate block_nums (planes * expansion) planes dilation
        stride_in_1x1 (block_id + 1) b

/-- A Python scalar that can be fed to `int(...)`: a bool or an int. -/
inductive PyNum where
  | pybool (b : Bool) : PyNum
  | pyint (n : ℤ) : PyNum
  deriving DecidableEq

/-- Python `int(x)` on a bool or int. -/
def PyNum.toInt : PyNum → ℤ
  | .pybool b => if b then 1 else 0
  | .pyint n => n

/-- The `checkpoint` constructor argument: a scalar or an iterable. -/
inductive Checkpoint where
  | scalar (v : PyNum) : Checkpoint
  | iter (xs : List PyNum) : Checkpoint
  deriving DecidableEq

/-- `ResNet.get_segments` (lines 635-640). -/
def ResNet.get_segments : Checkpoint → List ℤ
  | .iter xs => xs.map PyNum.toInt
  | .scalar v => List.replicate 5 v.toInt

/-- The train/requires_grad state of one layer's module tree, flattened:
the module `training` flag and the `requires_grad` flags of its parameters. -/
structure ModState where
  training : Bool
  requiresGrad : List Bool
  deriving DecidableEq

/-- `layer.eval()` plus `param.requires_grad = False` for every parameter
(lines 763-765). -/
def freezeOne (s : ModState) : ModState :=
  ⟨false, s.requiresGrad.map (fun _ => false)⟩

/-- `ResNet.freeze_layer` (lines 756-765) over the 5-entry list
`[layer0, layer1, layer2, layer3, layer4]`; `layer4` may be `None`, in
which case `.eval()` on it raises AttributeError. -/
def freeze_layer (frozen : List Nat) (ls : List (Option ModState)) :
    Except String (List (Option ModState)) :=
  match frozen with
  | [] => .ok ls
  | idx :: rest =>
    match pyIndex ls idx with
    | .error e => .error e
    | .ok none => .error "AttributeError"
    | .ok (some s) => freeze_layer rest (ls.set idx (some (freezeOne s)))

/-- The stem `layer0` (lines 578-603), recorded by its configuration. -/
structure Stem where
  deep_stem : Bool
  pool : Bool
  nnie : Bool
  deriving DecidableEq

/-- The `ResNet.__init__` arguments the embedding tracks.  `expansion` is
`block.expansion` of the chosen block class; `layers` and `width` are the
4- and 5-element lists of the source as tuples. -/
structure ResNetCfg where
  expansion : ℤ
  layers : Nat × Nat × Nat × Nat
  out_layers : List Nat
  out_strides : List ℤ
  style : String
  frozen_layers : List Nat
  checkpoint : Checkpoint
  deep_stem : Bool
  drop_path_rate : ℚ
  avg_down : Bool
  multiplier : ℚ
  width : ℤ × ℤ × ℤ × ℤ × ℤ
  nnie : Bool
  down_sample : String
  deriving DecidableEq

/-- `sum(layers)` (line 573). -/
def block_nums (cfg : ResNetCfg) : Nat :=
  cfg.layers.1 + cfg.layers.2.1 + cfg.layers.2.2.1 + cfg.layers.2.2.2

/-- `check_range` fails (lines 548-550): a nonempty index list with an
entry outside 0..4 trips the assert. -/
def check_range_fail (xs : List Nat) : Bool :=
  !xs.isEmpty && !(xs.all (fun i => i ≤ 4))

/-- `layer_out_planes` (lines 565, 567): stage output channel counts,
`int(width[0] * multiplier)` then `int(width[i] * expansion * multiplier)`. -/
def layer_out_planes (cfg : ResNetCfg) : List ℤ :=
  [pyIntMul cfg.width.1 cfg.multiplier,
   pyIntMul (cfg.width.2.1 * cfg.expansion) cfg.multiplier,
   pyIntMul (cfg.width.2.2.1 * cfg.expansion) cfg.multiplier,
   pyIntMul (cfg.width.2.2.2.1 * cfg.expansion) cfg.multiplier,
   pyIntMul (cfg.width.2.2.2.2 * cfg.expansion) cfg.multiplier]

/-- `layer_in_planes` (line 566): per-stage base widths,
`int(width[i] * multiplier)`. -/
def layer_in_planes (cfg : ResNetCfg) : List ℤ :=
  [pyIntMul cfg.width.1 cfg.multiplier,
   pyIntMul cfg.width.2.1 cfg.multiplier,
   pyIntMul cfg.width.2.2.1 cfg.multiplier,
   pyIntMul cfg.width.2.2.2.1 cfg.multiplier,
   pyIntMul cfg.width.2.2.2.2 cfg.multiplier]

/-- The per-layer module states freshly constructed modules carry: every
module starts in training mode with all parameters requiring grad; slot 4
is `None` when `layer4` is not built (line 625). -/
def initial_states (cfg : ResNetCfg) : List (Option ModState) :=
  [some ⟨true, List.replicate 1 true⟩,
   some ⟨true, List.replicate cfg.layers.1 true⟩,
   some ⟨true, List.replicate cfg.layers.2.1 true⟩,
   some ⟨true, List.replicate cfg.layers.2.2.1 true⟩,
   if 4 ∈ cfg.out_layers then some ⟨true, List.replicate cfg.layers.2.2.2 true⟩
   else none]

/-- The constructed model. -/
structure ResNetModel where
  layer0 : Stem
  layer1 : List BlockDesc
  layer2 : List BlockDesc
  layer3 : List BlockDesc
  layer4 : Option (List BlockDesc)
  out_layers : List Nat
  out_strides : List ℤ
  out_planes : List ℤ
  frozen_layers : List Nat
  segments : List ℤ
  stride_in_1x1 : Bool
  states : List (Option ModState)
  training : Bool
  deriving DecidableEq

/-- Construction of `layer4` (lines 616-625): built only when `4` is an
output layer, with stride `out_strides[-1] // 16` and dilation
`2 // layer4_stride`. -/
def ResNet.build_layer4 (cfg : ResNetCfg) (bn : Nat) (stride_in_1x1 : Bool)
    (inplanes : ℤ) : Except String (Option (List BlockDesc)) :=
  if 4 ∈ cfg.out_layers then
    match pyLast cfg.out_strides with
    | .error e => .error e
    | .ok s =>
      if Int.fdiv s 16 = 0 then .error "ZeroDivisionError"
      else
        match ResNet.make_layer cfg.expansion cfg.avg_down cfg.drop_path_rate
            bn inplanes ((layer_in_planes cfg).getD 4 0) cfg.layers.2.2.2
            (Int.fdiv s 16) (Int.fdiv 2 (Int.fdiv s 16)) stride_in_1x1
            (cfg.layers.1 + cfg.layers.2.1 + cfg.layers.2.2.1) with
        | .error e => .error e
        | .ok pr => .ok (some pr.1)
  else .ok none

/-- `ResNet.__init__` (lines 453-633): range/length asserts, style
dispatch, plane bookkeeping, the four `_make_layer` calls, and the final
`freeze_layer()`. -/
def ResNet.init (cfg : ResNetCfg) : Except String ResNetModel :=
  if check_range_fail cfg.frozen_layers then .error "AssertionError"
  else if check_range_fail cfg.out_layers then .error "AssertionError"
  else if cfg.out_layers.length ≠ cfg.out_strides.length then .error "AssertionError"
  else
    match mapPyIndex (layer_out_planes cfg) cfg.out_layers with
    | .error e => .error e
    | .ok out_planes =>
      match ResNet.make_layer cfg.expansion cfg.avg_down cfg.drop_path_rate
          (block_nums cfg) ((layer_out_planes cfg).getD 0 0)
          ((layer_in_planes cfg).getD 1 0) cfg.layers.1 1 1 false 0 with
      | .error e => .error e
      | .ok (l1, ip1) =>
        match ResNet.make_layer cfg.expansion cfg.avg_down cfg.drop_path_rate
            (block_nums cfg) ip1 ((layer_in_planes cfg).getD 2 0)
            cfg.layers.2.1 2 1 (cfg.style == "caffe") cfg.layers.1 with
        | .error e => .error e
        | .ok (l2, ip2) =>
          match ResNet.make_layer cfg.expansion cfg.avg_down cfg.drop_path_rate
              (block_nums cfg) ip2 ((layer_in_planes cfg).getD 3 0)
              cfg.layers.2.2.1 2 1 (cfg.style == "caffe")
              (cfg.layers.1 + cfg.layers.2.1) with
          | .error e => .error e
          | .ok (l3, ip3) =>
            match ResNet.build_layer4 cfg (block_nums cfg) (cfg.style == "caffe") ip3 with
            | .error e => .error e
            | .ok l4 =>
              match freeze_layer cfg.frozen_layers (initial_states cfg) with
              | .error e => .error e
              | .ok states =>
                .ok { layer0 := ⟨cfg.deep_stem, cfg.down_sample == "pool", cfg.nnie⟩
                      layer1 := l1, layer2 := l2, layer3 := l3, layer4 := l4
                      out_layers := cfg.out_layers
                      out_strides := cfg.out_strides
                      out_planes := out_planes
                      frozen_layers := cfg.frozen_layers
                      segments := ResNet.get_segments cfg.checkpoint
                      stride_in_1x1 := (cfg.style == "caffe")
                      states := states
                      training := true }

/-- `ResNet.train` (lines 767-779): set every module's `training` to
`mode`, then re-freeze the frozen layers. -/
def ResNet.train (m : ResNetModel) (mode : Bool) : Except String ResNetModel :=
  match freeze_layer m.frozen_layers
      (m.states.map (fun o => o.map (fun s => ⟨mode, s.requiresGrad⟩))) with
  | .error e => .error e
  | .ok ls2 => .ok { m with states := ls2, training := mode }

/-- Symbolic tensors inside `ResNet.forward`: the stage applications are
recorded, tagging whether a stage ran through `checkpoint_fwd`.
`ckptFwd` is modelled from the spec: the gradient-checkpointing wrapper
`checkpoint_fwd` is not part of this file; per the spec it recomputes the
stage's forward during backward, so functionally it applies the stage. -/
inductive FwdT where
  | image : FwdT
  | ckptFwd (idx : Nat) (segments : ℤ) (x : FwdT) : FwdT
  | layerFwd (idx : Nat) (x : FwdT) : FwdT
  deriving DecidableEq

/-- `getattr(self, layer_idx, None) is not None`: layers 0-3 always exist,
layer 4 exists iff it was built (line 745). -/
def ResNet.has_layer (m : ResNetModel) (i : Nat) : Bool :=
  if i = 4 then m.layer4.isSome else true

/-- One iteration body of the forward loop (lines 746-750). -/
def ResNet.fwd_step (m : ResNetModel) (idx : Nat) (x : FwdT) : Except String FwdT :=
  match pyIndex m.segments idx with
  | .error e => .error e
  | .ok seg =>
    .ok (if 0 < seg && !(m.frozen_layers.contains idx) then .ckptFwd idx seg x
         else .layerFwd idx x)

/-- The forward loop over `layer_idx in range(0, 5)` (lines 743-751),
carrying the running tensor and the `outs` accumulator. -/
def ResNet.fwd_loop (m : ResNetModel) :
    List Nat → FwdT → List FwdT → Except String (List FwdT)
  | [], _, outs => .ok outs
  | i :: rest, x, outs =>
    if ResNet.has_layer m i then
      match ResNet.fwd_step m i x with
      | .error e => .error e
      | .ok y => ResNet.fwd_loop m rest y (outs ++ [y])
    else ResNet.fwd_loop m rest x outs

/-- `ResNet.get_outstrides` (lines 715-722): `out_strides` as an int tensor. -/
def ResNet.get_outstrides (m : ResNetModel) : List ℤ :=
  m.out_strides

/-- The dict `ResNet.forward` returns. -/
structure FwdOut where
  features : List FwdT
  strides : List ℤ
  deriving DecidableEq

/-- `ResNet.forward` (lines 724-754). -/
def ResNet.forward (m : ResNetModel) : Except String FwdOut :=
  match ResNet.fwd_loop m [0, 1, 2, 3, 4] .image [] with
  | .error e => .error e
  | .ok outs =>
    match mapPyIndex outs m.out_layers with
    | .error e => .error e
    | .ok features => .ok ⟨features, ResNet.get_outstrides m⟩

/-- The stage application node the forward loop produces for layer `i`. -/
def expected_node (m : ResNetModel) (i : Nat) (x : FwdT) : FwdT :=
  let seg := m.segments.getD i 0
  if 0 < seg && !(m.frozen_layers.contains i) then .ckptFwd i seg x
  else .layerFwd i x

/-- The running tensor after layers 0..i (layers 0-3 always exist, and
`stage_out m 4` is only meaningful when `layer4` exists). -/
def stage_out (m : ResNetModel) : Nat → FwdT
  | 0 => expected_node m 0 .image
  | i + 1 => expected_node m (i + 1) (stage_out m i)

/-- The `outs` list the forward loop accumulates. -/
def expected_outs (m : ResNetModel) : List FwdT :=
  [stage_out m 0, stage_out m 1, stage_out m 2, stage_out m 3] ++
    (if m.layer4.isSome then [stage_out m 4] else [])

/-- All residual blocks of the model in network order. -/
def all_blocks (m : ResNetModel) : List BlockDesc :=
  m.layer1 ++ m.layer2 ++ m.layer3 ++ m.layer4.getD []

/-- The blocks of a list are assigned drop-path modules by the linear
schedule starting at global block index `b`. -/
def SchedFrom (dpr : ℚ) (bn : Nat) : Nat → List BlockDesc → Prop
  | _, [] => True
  | b, x :: xs => x.dropPath = dropOpt dpr b bn ∧ SchedFrom dpr bn (b + 1) xs

/-- Layer `i` of the state list, when present, is in eval mode with every
parameter's `requires_grad` cleared. -/
def FrozenAt (ls : List (Option ModState)) (i : Nat) : Prop :=
  ∀ s, ls.get? i = some (some s) →
    s.training = false ∧ ∀ g ∈ s.requiresGrad, g = false

/-- A placeholder model used as the default of `Option.getD`. -/
def emptyModel : ResNetModel :=
  { layer0 := ⟨false, false, false⟩, layer1 := [], layer2 := [], layer3 := [],
    layer4 := none, out_layers := [], out_strides := [], out_planes := [],
    frozen_layers := [], segments := [], stride_in_1x1 := false, states := [],
    training := true }

/-- A concrete ResNet-18-shaped configuration (BasicBlock expansion 1,
two blocks per stage, all five layers reported, layer0 frozen, drop-path
rate one half) used for concrete checks. -/
def cfgW : ResNetCfg :=
  { expansion := 1, layers := (2, 2, 2, 2), out_layers := [0, 1, 2, 3, 4],
    out_strides := [4, 4, 8, 16, 32], style := "pytorch",
    frozen_layers := [0], checkpoint := .scalar (.pyint 0),
    deep_stem := false, drop_path_rate := mkRat 1 2, avg_down := false,
    multiplier := 1, width := (64, 64, 128, 256, 512), nnie := false,
    down_sample := "pool" }

/-- The model `cfgW` constructs. -/
def mW : ResNetModel := ((ResNet.init cfgW).toOption).getD emptyModel

/-- The model `cfgW` constructs, after `train(False)`. -/
def mWtrain : ResNetModel := ((ResNet.train mW false).toOption).getD emptyModel

/-- `cfgW` with output layers 0..3 only: a C4-style backbone. -/
def cfgNo4 : ResNetCfg :=
  { cfgW with out_layers := [0, 1, 2, 3], out_strides := [4, 4, 8, 16] }

/-- A configuration whose stage block counts sum to exactly one. -/
def cfgOne : ResNetCfg :=
  { cfgW with
    layers := (1, 0, 0, 0)
    out_layers := [0]
    out_strides := [4]
    frozen_layers := [] }

/-- A caffe-style bottleneck configuration (expansion 4). -/
def cfgCaffe : ResNetCfg :=
  { cfgW with style := "caffe", expansion := 4, drop_path_rate := 0 }

/-- The model `cfgCaffe` constructs. -/
def mCaffe : ResNetModel := ((ResNet.init cfgCaffe).toOption).getD emptyModel

/-- A concrete `_make_layer` result used for concrete checks: stage of two
blocks, stride 2, starting at inplanes 64 toward planes 128. -/
def mlW : List BlockDesc × ℤ :=
  ((ResNet.make_layer 1 false 0 8 64 128 2 2 1 false 2).toOption).getD ([], 0)

/-! ### Basic lemmas about the Python-style helpers -/

theorem pyIndex_ok_of_lt {α : Type} :
    ∀ (xs : List α) (i : Nat) (d : α), i < xs.length →
      pyIndex xs i = .ok (xs.getD i d)
  | a :: as, 0, d, _ => rfl
  | a :: as, i + 1, d, h =>
    pyIndex_ok_of_lt as i d (Nat.lt_of_succ_lt_succ h)

theorem pyIndex_ok_lt {α : Type} :
    ∀ (xs : List α) (i : Nat) (v : α), pyIndex xs i = .ok v → i < xs.length
  | [], i, v, h => by cases h
  | a :: as, 0, v, _ => Nat.succ_pos _
  | a :: as, i + 1, v, h =>
    Nat.succ_lt_succ (pyIndex_ok_lt as i v h)

theorem mapPyIndex_ok {α : Type} (xs : List α) (d : α) :
    ∀ (l : List Nat), (∀ i ∈ l, i < xs.length) →
      mapPyIndex xs l = .ok (l.map fun i => xs.getD i d)
  | [], _ => rfl
  | i :: is, h => by
    have h1 : i < xs.length := h i (by simp)
    have h2 := mapPyIndex_ok xs d is (fun j hj => h j (by simp [hj]))
    simp [mapPyIndex, pyIndex_ok_of_lt xs i d h1, h2]

theorem get?_set_self {α : Type} :
    ∀ (l : List α) (i : Nat) (a : α), i < l.length → (l.set i a).get? i = some a
  | x :: xs, 0, a, _ => rfl
  | x :: xs, i + 1, a, h => get?_set_self xs i a (Nat.lt_of_succ_lt_succ h)

theorem get?_set_other {α : Type} :
    ∀ (l : List α) (i j : Nat) (a : α), i ≠ j → (l.set i a).get? j = l.get? j
  | [], i, j, a, _ => by simp
  | x :: xs, 0, 0, a, h => absurd rfl h
  | x :: xs, 0, j + 1, a, _ => rfl
  | x :: xs, i + 1, 0, a, _ => rfl
  | x :: xs, i + 1, j + 1, a, h =>
    get?_set_other xs i j a (fun hij => h (by rw [hij]))

theorem check_range_ok_mem {xs : List Nat} (h : check_range_fail xs = false) :
    ∀ i ∈ xs, i ≤ 4 := by
  intro i hi
  cases xs with
  | nil => cases hi
  | cons a l =>
    simp only [check_range_fail, List.isEmpty_cons, Bool.not_false,
      Bool.true_and, Bool.not_eq_false'] at h
    exact of_decide_eq_true (List.all_eq_true.mp h i hi)

/-! ### Characterization of `_make_layer` -/

theorem divInt_mul_div (a : ℚ) (i d : ℤ) :
    Rat.divInt (a.num * i) (a.den * d) = a * i / d := by
  rw [Rat.divInt_eq_div]
  push_cast
  rw [← div_mul_div_comm, Rat.num_div_den, mul_div_assoc]

theorem dropRateQ_eq (dpr : ℚ) (i bn : Nat) :
    dropRateQ dpr i bn = dpr * i / ((bn : ℚ) - 1) := by
  rw [dropRateQ, divInt_mul_div]
  push_cast
  ring

theorem pyIntMul_eq (w : ℤ) (m : ℚ) : pyIntMul w m = pyInt ((w : ℚ) * m) := by
  unfold pyIntMul
  congr 1
  calc Rat.divInt (w * m.num) (m.den : ℤ) = Rat.divInt (m.num * w) (m.den * 1) := by
        rw [mul_comm, mul_one]
    _ = m * w / 1 := divInt_mul_div m w 1
    _ = (w : ℚ) * m := by rw [div_one, mul_comm]

theorem blockRate_ok (dpr : ℚ) (id bn : Nat) (h : bn ≠ 1) :
    blockRate dpr id bn = .ok (dropRateQ dpr id bn) := by
  unfold blockRate
  rw [if_neg]
  intro h0
  omega

theorem makeRest_ok (dpr : ℚ) (bn : Nat) (ip p dl : ℤ) (s1 : Bool) (h : bn ≠ 1) :
    ∀ (n id : Nat),
      makeRest dpr bn ip p dl s1 id n = .ok (restDescs dpr bn ip p dl s1 id n)
  | 0, id => rfl
  | n + 1, id => by
    simp [makeRest, restDescs, blockRate_ok dpr id bn h,
      makeRest_ok dpr bn ip p dl s1 h n (id + 1), dropOpt]

theorem make_layer_ok (e : ℤ) (a : Bool) (dpr : ℚ) (bn : Nat) (ip p sd dl : ℤ)
    (s1 : Bool) (id b : Nat) (h : bn ≠ 1) :
    ResNet.make_layer e a dpr bn ip p (b + 1) sd dl s1 id =
      .ok (stageDescs e a dpr bn ip p (b + 1) sd dl s1 id, p * e) := by
  simp [ResNet.make_layer, stageDescs, blockRate_ok dpr id bn h,
    makeRest_ok dpr bn (p * e) p dl s1 h b (id + 1), dropOpt]

theorem make_layer_ok_char {e : ℤ} {a : Bool} {dpr : ℚ} {bn : Nat}
    {ip p sd dl : ℤ} {s1 : Bool} {id blocks : Nat} {r : List BlockDesc × ℤ}
    (h : ResNet.make_layer e a dpr bn ip p blocks sd dl s1 id = .ok r) :
    bn ≠ 1 ∧ ∃ b, blocks = b + 1 ∧
      r = (stageDescs e a dpr bn ip p blocks sd dl s1 id, p * e) := by
  have hbn : bn ≠ 1 := by
    intro hbn1
    rw [hbn1] at h
    simp [ResNet.make_layer, blockRate] at h
  refine ⟨hbn, ?_⟩
  cases blocks with
  | zero =>
    simp [ResNet.make_layer, blockRate_ok dpr id bn hbn] at h
  | succ b =>
    rw [make_layer_ok e a dpr bn ip p sd dl s1 id b hbn] at h
    exact ⟨b, rfl, by cases h; rfl⟩

theorem restDescs_length (dpr : ℚ) (bn : Nat) (ip p dl : ℤ) (s1 : Bool) :
    ∀ (n id : Nat), (restDescs dpr bn ip p dl s1 id n).length = n
  | 0, id => rfl
  | n + 1, id => by
    simp [restDescs, restDescs_length dpr bn ip p dl s1 n (id + 1)]

theorem stageDescs_length (e : ℤ) (a : Bool) (dpr : ℚ) (bn : Nat)
    (ip p sd dl : ℤ) (s1 : Bool) (id blocks : Nat) :
    (stageDescs e a dpr bn ip p blocks sd dl s1 id).length = blocks := by
  cases blocks with
  | zero => rfl
  | succ b => simp [stageDescs, restDescs_length]

theorem restDescs_mem (dpr : ℚ) (bn : Nat) (ip p dl : ℤ) (s1 : Bool) :
    ∀ (n id : Nat), ∀ bd ∈ restDescs dpr bn ip p dl s1 id n,
      bd.stride = 1 ∧ bd.downsample = none
  | 0, id, bd, hm => by cases hm
  | n + 1, id, bd, hm => by
    rcases List.mem_cons.mp hm with h1 | h2
    · rw [h1]; exact ⟨rfl, rfl⟩
    · exact restDescs_mem dpr bn ip p dl s1 n (id + 1) bd h2

/-! ### The linear drop-path schedule -/

theorem schedFrom_restDescs (dpr : ℚ) (bn : Nat) (ip p dl : ℤ) (s1 : Bool) :
    ∀ (n id : Nat), SchedFrom dpr bn id (restDescs dpr bn ip p dl s1 id n)
  | 0, id => trivial
  | n + 1, id =>
    ⟨rfl, schedFrom_restDescs dpr bn ip p dl s1 n (id + 1)⟩

theorem schedFrom_stageDescs (e : ℤ) (a : Bool) (dpr : ℚ) (bn : Nat)
    (ip p sd dl : ℤ) (s1 : Bool) (id blocks : Nat) :
    SchedFrom dpr bn id (stageDescs e a dpr bn ip p blocks sd dl s1 id) := by
  cases blocks with
  | zero => trivial
  | succ b =>
    exact ⟨rfl, schedFrom_restDescs dpr bn (p * e) p dl s1 b (id + 1)⟩

theorem schedFrom_append (dpr : ℚ) (bn : Nat) :
    ∀ (xs ys : List BlockDesc) (b : Nat),
      SchedFrom dpr bn b xs → SchedFrom dpr bn (b + xs.length) ys →
      SchedFrom dpr bn b (xs ++ ys)
  | [], ys, b, _, hy => by simpa using hy
  | x :: xs, ys, b, hx, hy => by
    refine ⟨hx.1, ?_⟩
    have hy2 : SchedFrom dpr bn (b + 1 + xs.length) ys := by
      have : b + 1 + xs.length = b + (x :: xs).length := by
        simp [List.length_cons]; omega
      rwa [this]
    exact schedFrom_append dpr bn xs ys (b + 1) hx.2 hy2

theorem schedFrom_get (dpr : ℚ) (bn : Nat) :
    ∀ (l : List BlockDesc) (b i : Nat) (hi : i < l.length),
      SchedFrom dpr bn b l → (l.get ⟨i, hi⟩).dropPath = dropOpt dpr (b + i) bn
  | x :: xs, b, 0, _, hs => by simpa using hs.1
  | x :: xs, b, i + 1, hi, hs => by
    have := schedFrom_get dpr bn xs (b + 1) i (Nat.lt_of_succ_lt_succ hi) hs.2
    simpa [Nat.add_assoc, Nat.add_comm 1 i] using this

/-! ### Freezing -/

theorem goodState_freezeOne (s : ModState) :
    (freezeOne s).training = false ∧ ∀ g ∈ (freezeOne s).requiresGrad, g = false := by
  refine ⟨rfl, ?_⟩
  intro g hg
  simp only [freezeOne, List.mem_map] at hg
  rcases hg with ⟨a, -, rfl⟩
  rfl

theorem freeze_preserves (p : Nat) :
    ∀ (fr : List Nat) (ls ls2 : List (Option ModState)),
      freeze_layer fr ls = .ok ls2 → FrozenAt ls p → FrozenAt ls2 p
  | [], ls, ls2, h, hf => by cases h; exact hf
  | idx :: rest, ls, ls2, h, hf => by
    unfold freeze_layer at h
    rcases heq : pyIndex ls idx with e | os
    · rw [heq] at h; cases h
    · rw [heq] at h
      cases os with
      | none => cases h
      | some s =>
        refine freeze_preserves p rest _ ls2 h ?_
        intro t ht
        by_cases hip : idx = p
        · subst hip
          rw [get?_set_self ls idx _ (pyIndex_ok_lt ls idx _ heq)] at ht
          cases ht
          exact goodState_freezeOne s
        · rw [get?_set_other ls idx p _ hip] at ht
          exact hf t ht

theorem freeze_layer_frozen :
    ∀ (fr : List Nat) (ls ls2 : List (Option ModState)),
      freeze_layer fr ls = .ok ls2 → ∀ i ∈ fr, FrozenAt ls2 i
  | [], ls, ls2, h, i, hi => by cases hi
  | idx :: rest, ls, ls2, h, i, hi => by
    unfold freeze_layer at h
    rcases heq : pyIndex ls idx with e | os
    · rw [heq] at h; cases h
    · rw [heq] at h
      cases os with
      | none => cases h
      | some s =>
        rcases List.mem_cons.mp hi with h1 | h2
        · subst h1
          refine freeze_preserves i rest _ ls2 h ?_
          intro t ht
          rw [get?_set_self ls i _ (pyIndex_ok_lt ls i _ heq)] at ht
          cases ht
          exact goodState_freezeOne s
        · exact freeze_layer_frozen rest _ ls2 h i h2

theorem build_layer4_isSome_iff {cfg : ResNetCfg} {bn : Nat} {s1 : Bool}
    {ip : ℤ} {l4 : Option (List BlockDesc)}
    (hnot : 4 ∉ cfg.out_layers → l4 = none)
    (hyes : 4 ∈ cfg.out_layers → bn ≠ 1 ∧ ∃ s b4, pyLast cfg.out_strides = .ok s ∧
      Int.fdiv s 16 ≠ 0 ∧ cfg.layers.2.2.2 = b4 + 1 ∧
      l4 = some (stageDescs cfg.expansion cfg.avg_down cfg.drop_path_rate bn ip
        ((layer_in_planes cfg).getD 4 0) cfg.layers.2.2.2 (Int.fdiv s 16)
        (Int.fdiv 2 (Int.fdiv s 16)) s1
        (cfg.layers.1 + cfg.layers.2.1 + cfg.layers.2.2.1))) :
    l4.isSome ↔ 4 ∈ cfg.out_layers := by
  constructor
  · intro hs
    by_contra h4
    rw [hnot h4] at hs
    simp at hs
  · intro h4
    obtain ⟨-, s, b4, -, -, -, hsome⟩ := hyes h4
    rw [hsome]
    rfl

/-! ### Inversion of the construction -/

theorem build_layer4_char {cfg : ResNetCfg} {bn : Nat} {s1 : Bool} {ip : ℤ}
    {l4 : Option (List BlockDesc)}
    (h : ResNet.build_layer4 cfg bn s1 ip = .ok l4) :
    (4 ∉ cfg.out_layers → l4 = none) ∧
    (4 ∈ cfg.out_layers → bn ≠ 1 ∧ ∃ s b4, pyLast cfg.out_strides = .ok s ∧
      Int.fdiv s 16 ≠ 0 ∧ cfg.layers.2.2.2 = b4 + 1 ∧
      l4 = some (stageDescs cfg.expansion cfg.avg_down cfg.drop_path_rate bn ip
        ((layer_in_planes cfg).getD 4 0) cfg.layers.2.2.2 (Int.fdiv s 16)
        (Int.fdiv 2 (Int.fdiv s 16)) s1
        (cfg.layers.1 + cfg.layers.2.1 + cfg.layers.2.2.1))) := by
  unfold ResNet.build_layer4 at h
  split at h
  · rename_i hmem
    refine ⟨fun hn => absurd hmem hn, fun _ => ?_⟩
    split at h
    · exact Except.noConfusion h
    rename_i s hs
    split at h
    · exact Except.noConfusion h
    rename_i hs16
    split at h
    · exact Except.noConfusion h
    rename_i pr hml
    obtain ⟨hbn, b4, hb4, hpr⟩ := make_layer_ok_char hml
    refine ⟨hbn, s, b4, hs, hs16, hb4, ?_⟩
    cases h
    rw [hpr]
  · rename_i hmem
    refine ⟨fun _ => by cases h; rfl, fun hm => absurd hm hmem⟩

theorem init_ok_char {cfg : ResNetCfg} {m : ResNetModel}
    (h : ResNet.init cfg = .ok m) :
    check_range_fail cfg.frozen_layers = false ∧
    check_range_fail cfg.out_layers = false ∧
    cfg.out_layers.length = cfg.out_strides.length ∧
    block_nums cfg ≠ 1 ∧
    m.out_layers = cfg.out_layers ∧
    m.out_strides = cfg.out_strides ∧
    m.frozen_layers = cfg.frozen_layers ∧
    m.stride_in_1x1 = (cfg.style == "caffe") ∧
    m.segments = ResNet.get_segments cfg.checkpoint ∧
    m.layer0 = ⟨cfg.deep_stem, cfg.down_sample == "pool", cfg.nnie⟩ ∧
    m.training = true ∧
    freeze_layer cfg.frozen_layers (initial_states cfg) = .ok m.states ∧
    (∃ b1, cfg.layers.1 = b1 + 1) ∧
    (∃ b2, cfg.layers.2.1 = b2 + 1) ∧
    (∃ b3, cfg.layers.2.2.1 = b3 + 1) ∧
    m.layer1 = stageDescs cfg.expansion cfg.avg_down cfg.drop_path_rate
      (block_nums cfg) ((layer_out_planes cfg).getD 0 0)
      ((layer_in_planes cfg).getD 1 0) cfg.layers.1 1 1 false 0 ∧
    m.layer2 = stageDescs cfg.expansion cfg.avg_down cfg.drop_path_rate
      (block_nums cfg) ((layer_in_planes cfg).getD 1 0 * cfg.expansion)
      ((layer_in_planes cfg).getD 2 0) cfg.layers.2.1 2 1
      (cfg.style == "caffe") cfg.layers.1 ∧
    m.layer3 = stageDescs cfg.expansion cfg.avg_down cfg.drop_path_rate
      (block_nums cfg) ((layer_in_planes cfg).getD 2 0 * cfg.expansion)
      ((layer_in_planes cfg).getD 3 0) cfg.layers.2.2.1 2 1
      (cfg.style == "caffe") (cfg.layers.1 + cfg.layers.2.1) ∧
    ResNet.build_layer4 cfg (block_nums cfg) (cfg.style == "caffe")
      ((layer_in_planes cfg).getD 3 0 * cfg.expansion) = .ok m.layer4 := by
  unfold ResNet.init at h
  split at h
  · exact Except.noConfusion h
  rename_i hfr
  split at h
  · exact Except.noConfusion h
  rename_i hol
  split at h
  · exact Except.noConfusion h
  rename_i hlen
  split at h
  · exact Except.noConfusion h
  rename_i out_planes hop
  split at h
  · exact Except.noConfusion h
  rename_i l1 ip1 hml1
  split at h
  · exact Except.noConfusion h
  rename_i l2 ip2 hml2
  split at h
  · exact Except.noConfusion h
  rename_i l3 ip3 hml3
  split at h
  · exact Except.noConfusion h
  rename_i l4 hbl4
  split at h
  · exact Except.noConfusion h
  rename_i states hfz
  obtain ⟨hbn, b1, hb1, hr1⟩ := make_layer_ok_char hml1
  obtain ⟨-, b2, hb2, hr2⟩ := make_layer_ok_char hml2
  obtain ⟨-, b3, hb3, hr3⟩ := make_layer_ok_char hml3
  injection hr1 with hl1 hip1
  subst hip1
  injection hr2 with hl2 hip2
  subst hip2
  injection hr3 with hl3 hip3
  subst hip3
  injection h with hm
  subst hm
  exact ⟨by simpa using hfr, by simpa using hol, not_not.mp hlen, hbn,
    rfl, rfl, rfl, rfl, rfl, rfl, rfl, hfz, ⟨b1, hb1⟩, ⟨b2, hb2⟩, ⟨b3, hb3⟩,
    hl1, hl2, hl3, hbl4⟩

/-! ### The forward pass -/

theorem fwd_step_ok (m : ResNetModel) (i : Nat) (x : FwdT)
    (h : i < m.segments.length) :
    ResNet.fwd_step m i x = .ok (expected_node m i x) := by
  unfold ResNet.fwd_step expected_node
  rw [pyIndex_ok_of_lt m.segments i 0 h]

theorem fwd_loop_char (m : ResNetModel) (h5 : m.segments.length = 5) :
    ResNet.fwd_loop m [0, 1, 2, 3, 4] .image [] = .ok (expected_outs m) := by
  have hx : ∀ (i : Nat) (x : FwdT), i < 5 →
      ResNet.fwd_step m i x = .ok (expected_node m i x) :=
    fun i x hi => fwd_step_ok m i x (by omega)
  by_cases h4 : m.layer4.isSome
  · simp only [ResNet.fwd_loop, ResNet.has_layer, hx 0 _ (by omega),
      hx 1 _ (by omega), hx 2 _ (by omega), hx 3 _ (by omega),
      hx 4 _ (by omega), h4, if_true, if_false, expected_outs]
    rfl
  · simp only [Bool.not_eq_true] at h4
    simp only [ResNet.fwd_loop, ResNet.has_layer, hx 0 _ (by omega),
      hx 1 _ (by omega), hx 2 _ (by omega), hx 3 _ (by omega), h4,
      expected_outs]
    rfl

theorem expected_outs_length (m : ResNetModel) :
    (expected_outs m).length = if m.layer4.isSome then 5 else 4 := by
  by_cases h4 : m.layer4.isSome <;> simp [expected_outs, h4]

theorem expected_outs_getD (m : ResNetModel) (i : Nat) (h4 : i ≤ 4)
    (hi : i = 4 → m.layer4.isSome) :
    (expected_outs m).getD i FwdT.image = stage_out m i := by
  match i, h4 with
  | 0, _ => rfl
  | 1, _ => rfl
  | 2, _ => rfl
  | 3, _ => rfl
  | 4, _ =>
    have := hi rfl
    simp [expected_outs, this, List.getD]

theorem expected_node_eq (m : ResNetModel) (i : Nat) (x : FwdT) :
    expected_node m i x =
      if 0 < m.segments.getD i 0 ∧ i ∉ m.frozen_layers then
        FwdT.ckptFwd i (m.segments.getD i 0) x
      else FwdT.layerFwd i x := by
  unfold expected_node
  cases hbool : (decide (0 < m.segments.getD i 0) &&
      !(m.frozen_layers.contains i)) with
  | true =>
    have hc : 0 < m.segments.getD i 0 ∧ i ∉ m.frozen_layers := by
      simpa using hbool
    simp [hbool, hc]
  | false =>
    have hc : ¬(0 < m.segments.getD i 0 ∧ i ∉ m.frozen_layers) := by
      intro hcc
      have hb2 : (decide (0 < m.segments.getD i 0) &&
          !(m.frozen_layers.contains i)) = true := by
        simp [← List.getD_eq_getElem?_getD, hcc.1, hcc.2]
      rw [hbool] at hb2
      cases hb2
    simp [hbool, hc]

/-! ## Claims -/

/-- Claim C1, counterexample: contrary to the claim, the deformable block
variants are not configurable with a stochastic-depth drop: the
`DeformBasicBlock` and `DeformBlock` constructors have no `drop_path`
parameter, and their forward passes (here at a concrete configuration)
contain no drop-path application at all. -/
theorem c1_deform_no_drop_counterexample :
    "drop_path" ∉ DeformBasicBlock.ctor_args ∧
    "drop_path" ∉ DeformBlock.ctor_args ∧
    hasDropNode (DeformBasicBlock.fwd
      (DeformBasicBlock.init 64 64 1 2 none false) TExpr.input) = false ∧
    hasDropNode (DeformBlock.fwd
      (DeformBlock.init 256 64 1 2 none false) TExpr.input) = false :=
  ⟨by decide, by decide, rfl, rfl⟩

/-- Claim C1 (amended): every block variant is a residual unit whose
constructor accepts an optional downsample module; BasicBlock, Bottleneck
and RepBasicBlock additionally accept an optional stochastic-depth drop and
their forwards apply the drop-path to the residual branch immediately
before the shortcut addition whenever one was configured, while
DeformBasicBlock and DeformBlock take no drop-path argument and never apply
one. -/
theorem c1_block_drop_path_amended :
    (∀ (b : BasicBlockM) (x : TExpr) (p : ℚ), b.dropPath = some p →
      dropAppliedToMain (BasicBlock.fwd b x) = true) ∧
    (∀ (b : BottleneckM) (x : TExpr) (p : ℚ), b.dropPath = some p →
      dropAppliedToMain (Bottleneck.fwd b x) = true) ∧
    (∀ (b : RepBasicBlockM) (x : TExpr) (p : ℚ), b.dropPath = some p →
      dropAppliedToMain (RepBasicBlock.fwd b x) = true) ∧
    (∀ (b : DeformBasicBlockM) (x : TExpr),
      hasDropNode (DeformBasicBlock.fwd b x) = hasDropNode x) ∧
    (∀ (b : DeformBlockM) (x : TExpr),
      hasDropNode (DeformBlock.fwd b x) = hasDropNode x) ∧
    ("downsample" ∈ BasicBlock.ctor_args ∧ "downsample" ∈ Bottleneck.ctor_args ∧
      "downsample" ∈ RepBasicBlock.ctor_args ∧
      "downsample" ∈ DeformBasicBlock.ctor_args ∧
      "downsample" ∈ DeformBlock.ctor_args) ∧
    ("drop_path" ∈ BasicBlock.ctor_args ∧ "drop_path" ∈ Bottleneck.ctor_args ∧
      "drop_path" ∈ RepBasicBlock.ctor_args) := by
  refine ⟨?_, ?_, ?_, ?_, ?_, by decide, by decide⟩
  · intro b x p hp
    simp [BasicBlock.fwd, hp, dropAppliedToMain]
  · intro b x p hp
    simp [Bottleneck.fwd, hp, dropAppliedToMain]
  · intro b x p hp
    simp [RepBasicBlock.fwd, hp, dropAppliedToMain]
  · intro b x
    cases hd : b.downsample <;>
      simp [DeformBasicBlock.fwd, hasDropNode, hd]
  · intro b x
    cases hd : b.downsample <;>
      simp [DeformBlock.fwd, hasDropNode, hd]

/-- Claim C1 witness: the amended statement at a concrete BasicBlock with
drop probability one half. -/
theorem c1_block_drop_path_amended_witness :
    (BasicBlock.init 64 64 1 1 none false (some (mkRat 1 2))).dropPath =
      some (mkRat 1 2) ∧
    dropAppliedToMain (BasicBlock.fwd
      (BasicBlock.init 64 64 1 1 none false (some (mkRat 1 2))) TExpr.input) = true :=
  ⟨rfl, c1_block_drop_path_amended.1
    (BasicBlock.init 64 64 1 1 none false (some (mkRat 1 2))) TExpr.input
    (mkRat 1 2) rfl⟩

/-- Claim C8: `drop_path` is the identity whenever the drop probability is
zero or the module is not in training mode. -/
theorem c8_drop_path_identity (x : List (List ℚ)) (p : ℚ) (training : Bool)
    (rand : List ℚ) (h : p = 0 ∨ training = false) :
    drop_path x p training rand = x := by
  unfold drop_path
  rw [if_pos h]

/-- Claim C8 witness: the identity at concrete tensors, both for zero drop
probability in training and for a positive probability out of training. -/
theorem c8_drop_path_identity_witness :
    drop_path [[3, 4], [5, 6]] 0 true [0, mkRat 1 2] = [[3, 4], [5, 6]] ∧
    drop_path [[3, 4]] (mkRat 1 4) false [mkRat 1 3] = [[3, 4]] :=
  ⟨c8_drop_path_identity _ _ _ _ (Or.inl rfl),
   c8_drop_path_identity _ _ _ _ (Or.inr rfl)⟩

/-- Claim C9: for every configuration passing the constructor asserts whose
stage block counts sum to exactly one, construction fails with
ZeroDivisionError: line 681 divides by `block_nums - 1.` before the first
block of layer1 is built, regardless of the drop-path rate. -/
theorem c9_block_nums_one_divzero (cfg : ResNetCfg)
    (h1 : check_range_fail cfg.frozen_layers = false)
    (h2 : check_range_fail cfg.out_layers = false)
    (h3 : cfg.out_layers.length = cfg.out_strides.length)
    (hbn : block_nums cfg = 1) :
    ResNet.init cfg = .error "ZeroDivisionError" := by
  have hmap := mapPyIndex_ok (layer_out_planes cfg) 0 cfg.out_layers
    (fun i hi => by
      have hle := check_range_ok_mem h2 i hi
      simp only [layer_out_planes, List.length_cons, List.length_nil]
      omega)
  have hml : ResNet.make_layer cfg.expansion cfg.avg_down cfg.drop_path_rate
      (block_nums cfg) ((layer_out_planes cfg).getD 0 0)
      ((layer_in_planes cfg).getD 1 0) cfg.layers.1 1 1 false 0 =
      .error "ZeroDivisionError" := by
    simp [ResNet.make_layer, blockRate, hbn]
  unfold ResNet.init
  rw [if_neg (by simp [h1]), if_neg (by simp [h2]), if_neg (by simp [h3]),
    hmap, hml]

/-- Claim C9 witness: the concrete configuration with layers `[1, 0, 0, 0]`
satisfies the asserts, has `block_nums = 1`, and construction evaluates to
ZeroDivisionError. -/
theorem c9_block_nums_one_divzero_witness :
    check_range_fail cfgOne.frozen_layers = false ∧
    check_range_fail cfgOne.out_layers = false ∧
    cfgOne.out_layers.length = cfgOne.out_strides.length ∧
    block_nums cfgOne = 1 ∧
    ResNet.init cfgOne = .error "ZeroDivisionError" :=
  ⟨rfl, rfl, rfl, rfl, c9_block_nums_one_divzero cfgOne rfl rfl rfl rfl⟩

/-- Claim C6: a successful `_make_layer` builds a stage whose first block
carries the stage stride and a downsample path exactly when
`stride != 1 or inplanes != planes * expansion` (average-pool-plus-1x1-conv
when `avg_down`, else a strided 1x1 conv plus norm), while every later
block of the stage gets stride 1 and no downsample. -/
theorem c6_make_layer_downsample (e : ℤ) (a : Bool) (dpr : ℚ) (bn : Nat)
    (ip p sd dl : ℤ) (s1 : Bool) (id blocks : Nat) (r : List BlockDesc × ℤ)
    (h : ResNet.make_layer e a dpr bn ip p blocks sd dl s1 id = .ok r) :
    ∃ first rest, r.1 = first :: rest ∧
      first.downsample = (if sd ≠ 1 ∨ ip ≠ p * e
        then some (if a then DownsampleKind.avgPoolConv else DownsampleKind.convNorm)
        else none) ∧
      (first.downsample ≠ none ↔ (sd ≠ 1 ∨ ip ≠ p * e)) ∧
      first.stride = sd ∧
      ∀ bd ∈ rest, bd.stride = 1 ∧ bd.downsample = none := by
  obtain ⟨hbn, b, hb, hr⟩ := make_layer_ok_char h
  subst hb
  rw [hr]
  refine ⟨_, _, rfl, rfl, ?_, rfl, ?_⟩
  · show mkDownsample a sd ip p e ≠ none ↔ _
    unfold mkDownsample
    by_cases hc : sd ≠ 1 ∨ ip ≠ p * e
    · simp [hc]
    · simp [hc]
  · exact fun bd hm => restDescs_mem dpr bn (p * e) p dl s1 b (id + 1) bd hm

/-- Claim C6 witness: a concrete strided stage of two blocks. -/
theorem c6_make_layer_downsample_witness :
    ResNet.make_layer 1 false 0 8 64 128 2 2 1 false 2 = .ok mlW ∧
    (∃ first rest, mlW.1 = first :: rest ∧
      first.downsample = (if (2 : ℤ) ≠ 1 ∨ (64 : ℤ) ≠ 128 * 1
        then some (if false then DownsampleKind.avgPoolConv else DownsampleKind.convNorm)
        else none) ∧
      (first.downsample ≠ none ↔ ((2 : ℤ) ≠ 1 ∨ (64 : ℤ) ≠ 128 * 1)) ∧
      first.stride = 2 ∧
      ∀ bd ∈ rest, bd.stride = 1 ∧ bd.downsample = none) :=
  ⟨by decide,
   c6_make_layer_downsample 1 false 0 8 64 128 2 1 false 2 2 mlW (by decide)⟩

/-- Claim C10: in Bottleneck and DeformBlock the stage stride is carried
by conv1 (the 1x1) with conv2 (the 3x3) at stride 1 exactly when
`stride_in_1x1` is true, and vice versa when it is false; and a constructed
ResNet sets `stride_in_1x1` to true iff its style is caffe. -/
theorem c10_stride_in_1x1 :
    (∀ (ip p s d : ℤ) (ds : Option Unit) (s1 : Bool) (dp : Option ℚ),
      ((Bottleneck.init ip p s d ds s1 dp).conv1.stride,
        (Bottleneck.init ip p s d ds s1 dp).conv2.stride) =
        (if s1 then (s, 1) else (1, s))) ∧
    (∀ (ip p s d : ℤ) (ds : Option Unit) (s1 : Bool),
      ((DeformBlock.init ip p s d ds s1).conv1.stride,
        (DeformBlock.init ip p s d ds s1).conv2.stride) =
        (if s1 then (s, 1) else (1, s))) ∧
    (∀ (cfg : ResNetCfg) (m : ResNetModel), ResNet.init cfg = .ok m →
      (m.stride_in_1x1 = true ↔ cfg.style = "caffe")) := by
  refine ⟨?_, ?_, ?_⟩
  · intro ip p s d ds s1 dp
    cases s1 <;> rfl
  · intro ip p s d ds s1
    cases s1 <;> rfl
  · intro cfg m h
    obtain ⟨-, -, -, -, -, -, -, hs, -, -, -, -, -, -, -, -, -, -, -⟩ :=
      init_ok_char h
    rw [hs]
    simp

/-- Claim C10 witness: the caffe-style configuration yields
`stride_in_1x1 = true`, and a concrete Bottleneck at stride 2 with
`stride_in_1x1` strides in conv1. -/
theorem c10_stride_in_1x1_witness :
    ResNet.init cfgCaffe = .ok mCaffe ∧
    (mCaffe.stride_in_1x1 = true ↔ cfgCaffe.style = "caffe") ∧
    ((Bottleneck.init 64 64 2 1 none true none).conv1.stride,
      (Bottleneck.init 64 64 2 1 none true none).conv2.stride) =
      (if true then ((2 : ℤ), (1 : ℤ)) else (1, 2)) :=
  ⟨by decide, c10_stride_in_1x1.2.2 cfgCaffe mCaffe (by decide),
   c10_stride_in_1x1.1 64 64 2 1 none true none⟩

/-- Claim C2, counterexample: with out_layers `[0, 1, 2, 3]` the
constructor succeeds but `layer4` is `None`, so not every constructed
instance contains all four residual stages. -/
theorem c2_layer4_none_counterexample :
    (ResNet.init cfgNo4).map ResNetModel.layer4 = .ok none := by decide

/-- Claim C2 (amended): every constructed ResNet contains the stem
`layer0` and nonempty stages `layer1`..`layer3`; `layer4` is built (and
nonempty) iff `4` is among the output layers, and is `None` otherwise. -/
theorem c2_stages_amended (cfg : ResNetCfg) (m : ResNetModel)
    (h : ResNet.init cfg = .ok m) :
    m.layer0 = ⟨cfg.deep_stem, cfg.down_sample == "pool", cfg.nnie⟩ ∧
    m.layer1.length = cfg.layers.1 ∧ 0 < cfg.layers.1 ∧
    m.layer2.length = cfg.layers.2.1 ∧ 0 < cfg.layers.2.1 ∧
    m.layer3.length = cfg.layers.2.2.1 ∧ 0 < cfg.layers.2.2.1 ∧
    (m.layer4.isSome ↔ 4 ∈ cfg.out_layers) ∧
    (∀ l4, m.layer4 = some l4 →
      l4.length = cfg.layers.2.2.2 ∧ 0 < cfg.layers.2.2.2) := by
  obtain ⟨-, -, -, -, -, -, -, -, -, hL0, -, -, ⟨b1, hb1⟩, ⟨b2, hb2⟩,
    ⟨b3, hb3⟩, hL1, hL2, hL3, hB4⟩ := init_ok_char h
  obtain ⟨hnot, hyes⟩ := build_layer4_char hB4
  refine ⟨hL0, ?_, by omega, ?_, by omega, ?_, by omega, ?_, ?_⟩
  · rw [hL1, stageDescs_length]
  · rw [hL2, stageDescs_length]
  · rw [hL3, stageDescs_length]
  · exact build_layer4_isSome_iff hnot hyes
  · intro l4 h4some
    by_cases h4 : 4 ∈ cfg.out_layers
    · obtain ⟨-, s, b4, -, -, hb4, hsome⟩ := hyes h4
      rw [hsome] at h4some
      injection h4some with he
      exact ⟨by rw [← he, stageDescs_length], by omega⟩
    · rw [hnot h4] at h4some
      exact Option.noConfusion h4some

/-- Claim C2 witness: the amended statement at the concrete five-output
configuration. -/
theorem c2_stages_amended_witness :
    ResNet.init cfgW = .ok mW ∧
    (mW.layer4.isSome ↔ 4 ∈ cfgW.out_layers) ∧
    mW.layer1.length = cfgW.layers.1 :=
  ⟨by decide, (c2_stages_amended cfgW mW (by decide)).2.2.2.2.2.2.2.1,
   (c2_stages_amended cfgW mW (by decide)).2.1⟩

/-- Claim C3: in a constructed model, the block at 0-based global index
`i` (counted across all stages) carries the drop-path rate
`drop_path_rate * i / (block_nums - 1)`, and has a DropPath module
attached exactly when this rate is strictly positive. -/
theorem c3_drop_path_schedule (cfg : ResNetCfg) (m : ResNetModel)
    (h : ResNet.init cfg = .ok m) (i : Nat) (hi : i < (all_blocks m).length) :
    ((all_blocks m).get ⟨i, hi⟩).dropPath =
      (if 0 < cfg.drop_path_rate * i / ((block_nums cfg : ℚ) - 1)
       then some (cfg.drop_path_rate * i / ((block_nums cfg : ℚ) - 1))
       else none) := by
  obtain ⟨-, -, -, -, -, -, -, -, -, -, -, -, -, -, -, hL1, hL2, hL3, hB4⟩ :=
    init_ok_char h
  obtain ⟨hnot, hyes⟩ := build_layer4_char hB4
  have len1 : m.layer1.length = cfg.layers.1 := by rw [hL1, stageDescs_length]
  have len2 : m.layer2.length = cfg.layers.2.1 := by rw [hL2, stageDescs_length]
  have len3 : m.layer3.length = cfg.layers.2.2.1 := by
    rw [hL3, stageDescs_length]
  have s4 : SchedFrom cfg.drop_path_rate (block_nums cfg)
      (cfg.layers.1 + cfg.layers.2.1 + cfg.layers.2.2.1) (m.layer4.getD []) := by
    by_cases h4 : 4 ∈ cfg.out_layers
    · obtain ⟨-, s, b4, -, -, -, hsome⟩ := hyes h4
      rw [hsome]
      exact schedFrom_stageDescs _ _ _ _ _ _ _ _ _ _ _
    · rw [hnot h4]
      trivial
  have s12 : SchedFrom cfg.drop_path_rate (block_nums cfg) 0
      (m.layer1 ++ m.layer2) := by
    refine schedFrom_append _ _ _ _ _ ?_ ?_
    · rw [hL1]
      exact schedFrom_stageDescs _ _ _ _ _ _ _ _ _ _ _
    · rw [len1, Nat.zero_add, hL2]
      exact schedFrom_stageDescs _ _ _ _ _ _ _ _ _ _ _
  have s123 : SchedFrom cfg.drop_path_rate (block_nums cfg) 0
      (m.layer1 ++ m.layer2 ++ m.layer3) := by
    refine schedFrom_append _ _ _ _ _ s12 ?_
    rw [List.length_append, len1, len2, Nat.zero_add, hL3]
    exact schedFrom_stageDescs _ _ _ _ _ _ _ _ _ _ _
  have hall : SchedFrom cfg.drop_path_rate (block_nums cfg) 0 (all_blocks m) := by
    refine schedFrom_append _ _ _ _ _ s123 ?_
    rw [List.length_append, List.length_append, len1, len2, len3, Nat.zero_add]
    exact s4
  have hget := schedFrom_get cfg.drop_path_rate (block_nums cfg)
    (all_blocks m) 0 i hi hall
  rw [hget]
  simp only [dropOpt, dropRateQ_eq, Nat.zero_add]

/-- Claim C3 witness: in the concrete model built with drop-path rate one
half over eight blocks, the block at global index 3 carries rate
`(1/2) * 3 / 7` and has a DropPath attached. -/
theorem c3_drop_path_schedule_witness :
    ResNet.init cfgW = .ok mW ∧
    ((all_blocks mW).get ⟨3, by decide⟩).dropPath =
      (if 0 < cfgW.drop_path_rate * (3 : ℕ) / ((block_nums cfgW : ℚ) - 1)
       then some (cfgW.drop_path_rate * (3 : ℕ) / ((block_nums cfgW : ℚ) - 1))
       else none) :=
  ⟨by decide, c3_drop_path_schedule cfgW mW (by decide) 3 (by decide)⟩

/-- Claim C5: partial layer freezing is an invariant: right after
construction, and after every `train(mode)` call, every layer listed in
`frozen_layers` is in eval mode with `requires_grad` cleared on all its
parameters. -/
theorem c5_freeze_invariant :
    (∀ (cfg : ResNetCfg) (m : ResNetModel), ResNet.init cfg = .ok m →
      ∀ i ∈ m.frozen_layers, FrozenAt m.states i) ∧
    (∀ (m m2 : ResNetModel) (mode : Bool), ResNet.train m mode = .ok m2 →
      ∀ i ∈ m2.frozen_layers, FrozenAt m2.states i) := by
  constructor
  · intro cfg m h i hi
    obtain ⟨-, -, -, -, -, -, hfroz, -, -, -, -, hfz, -, -, -, -, -, -, -⟩ :=
      init_ok_char h
    refine freeze_layer_frozen cfg.frozen_layers _ _ hfz i ?_
    rwa [hfroz] at hi
  · intro m m2 mode h i hi
    unfold ResNet.train at h
    split at h
    · exact Except.noConfusion h
    rename_i ls2 hfz
    injection h with hm
    subst hm
    exact freeze_layer_frozen m.frozen_layers _ _ hfz i hi

/-- Claim C5 witness: layer 0 of the concrete model is frozen right after
construction and stays frozen after `train(False)`. -/
theorem c5_freeze_invariant_witness :
    ResNet.init cfgW = .ok mW ∧ 0 ∈ mW.frozen_layers ∧
    FrozenAt mW.states 0 ∧
    ResNet.train mW false = .ok mWtrain ∧ FrozenAt mWtrain.states 0 :=
  ⟨by decide, by decide,
   c5_freeze_invariant.1 cfgW mW (by decide) 0 (by decide),
   by decide,
   c5_freeze_invariant.2 mW mWtrain false (by decide) 0 (by decide)⟩

/-- Claim C4: in the forward loop, an existing stage `i` runs through
gradient checkpointing iff `segments[i] > 0` and `i` is not frozen, else it
is applied directly; and `get_segments` broadcasts a scalar or boolean
checkpoint argument to the same integer for all five layers, while an
iterable is converted element-wise to ints. -/
theorem c4_checkpoint_dispatch :
    (∀ m : ResNetModel, m.segments.length = 5 →
      ResNet.fwd_loop m [0, 1, 2, 3, 4] .image [] = .ok (expected_outs m)) ∧
    (∀ (m : ResNetModel) (i : Nat) (x : FwdT),
      (expected_node m i x = .ckptFwd i (m.segments.getD i 0) x ↔
        (0 < m.segments.getD i 0 ∧ i ∉ m.frozen_layers)) ∧
      (expected_node m i x = .layerFwd i x ↔
        ¬(0 < m.segments.getD i 0 ∧ i ∉ m.frozen_layers))) ∧
    (∀ v : PyNum, ResNet.get_segments (.scalar v) = List.replicate 5 v.toInt) ∧
    (∀ xs : List PyNum, ResNet.get_segments (.iter xs) = xs.map PyNum.toInt) := by
  refine ⟨fwd_loop_char, ?_, fun v => rfl, fun xs => rfl⟩
  intro m i x
  rw [expected_node_eq]
  by_cases hc : 0 < m.segments.getD i 0 ∧ i ∉ m.frozen_layers
  · rw [if_pos hc]
    exact ⟨by simp [← List.getD_eq_getElem?_getD, hc],
      by simp [← List.getD_eq_getElem?_getD, hc]⟩
  · rw [if_neg hc]
    exact ⟨by simp [← List.getD_eq_getElem?_getD, hc],
      by simp [← List.getD_eq_getElem?_getD, hc]⟩

/-- Claim C4 witness: the loop characterization at the concrete model. -/
theorem c4_checkpoint_dispatch_witness :
    mW.segments.length = 5 ∧
    ResNet.fwd_loop mW [0, 1, 2, 3, 4] .image [] = .ok (expected_outs mW) :=
  ⟨by decide, c4_checkpoint_dispatch.1 mW (by decide)⟩

/-- Claim C7: for a constructed model whose segment list covers the five
layers, `forward` returns the features of exactly the stages named in
`out_layers`, in that order, paired with `out_strides` as the strides
tensor; the features list has the same length as `out_layers`, which has
the same length as `out_strides`. -/
theorem c7_forward_features (cfg : ResNetCfg) (m : ResNetModel)
    (h : ResNet.init cfg = .ok m) (h5 : m.segments.length = 5) :
    ResNet.forward m =
      .ok ⟨m.out_layers.map (stage_out m), ResNet.get_outstrides m⟩ ∧
    (m.out_layers.map (stage_out m)).length = m.out_layers.length ∧
    m.out_layers.length = m.out_strides.length := by
  obtain ⟨-, hrange, hlen, -, hout, hstr, -, -, -, -, -, -, -, -, -, -, -, -,
    hB4⟩ := init_ok_char h
  obtain ⟨hnot, hyes⟩ := build_layer4_char hB4
  have hiff := build_layer4_isSome_iff hnot hyes
  have hmem4 : ∀ i ∈ m.out_layers, i ≤ 4 := fun i hi =>
    check_range_ok_mem hrange i (hout ▸ hi)
  have hbound : ∀ i ∈ m.out_layers, i < (expected_outs m).length := by
    intro i hi
    have hi4 := hmem4 i hi
    rw [expected_outs_length]
    by_cases hs : m.layer4.isSome
    · rw [if_pos hs]
      omega
    · rw [if_neg hs]
      rcases Nat.lt_or_ge i 4 with hlt | hge
      · exact hlt
      · exfalso
        have h4eq : i = 4 := by omega
        subst h4eq
        exact hs (hiff.mpr (hout ▸ hi))
  have hmap := mapPyIndex_ok (expected_outs m) FwdT.image m.out_layers hbound
  have hmapeq :
      (m.out_layers.map fun i => (expected_outs m).getD i FwdT.image) =
        m.out_layers.map (stage_out m) := by
    apply List.map_congr_left
    intro i hi
    apply expected_outs_getD
    · exact hmem4 i hi
    · intro h4eq
      subst h4eq
      exact hiff.mpr (hout ▸ hi)
  refine ⟨?_, by simp, by rw [hout, hstr]; exact hlen⟩
  have step1 : ResNet.forward m =
      (match mapPyIndex (expected_outs m) m.out_layers with
       | .error e => .error e
       | .ok features => .ok ⟨features, ResNet.get_outstrides m⟩) := by
    unfold ResNet.forward
    rw [fwd_loop_char m h5]
  rw [step1, hmap, hmapeq]

/-- Claim C7 witness: `forward` on the concrete model returns the five
stage outputs in order with strides `[4, 4, 8, 16, 32]`. -/
theorem c7_forward_features_witness :
    ResNet.init cfgW = .ok mW ∧ mW.segments.length = 5 ∧
    ResNet.forward mW =
      .ok ⟨mW.out_layers.map (stage_out mW), ResNet.get_outstrides mW⟩ :=
  ⟨by decide, by decide,
   (c7_forward_features cfgW mW (by decide) (by decide)).1⟩

end UPResNet
